import Mathlib

/-!
# Verification of the codespace provisioning subsystem

A shallow embedding of the `codespace create` flow of this repository
(package `codespace`): the data model (`api.Repository`,
`api.DevContainerEntry`, `api.Machine`, `api.CreateCodespaceParams`,
`api.Codespace`), the `App.Create` orchestration, `buildDisplayName`,
and the readiness poll loop, together with theorems settling the
spec's testable properties.

The implementation files (`create.go`, the poller) are not under `src/`;
only their tests (`src/pkg/cmd/codespace/create_test.go`) are.  The
operational definitions below are therefore modelled from the spec
(sections 3, 4.1 to 4.4, 7), with the test file fixing the concrete
strings and the observable behaviour (expected stdout/stderr, the exact
wrapped error message for discovery failures, the permissions
instruction text).  Durations are modelled as `Nat` nanoseconds, as in
Go's `time.Duration`; machine integers stay within range throughout.
-/

set_option maxRecDepth 100000

namespace Codespaces

/-- One minute in nanoseconds (Go `time.Minute`). -/
def timeMinute : Nat := 60000000000

/-- One hour in nanoseconds (Go `time.Hour`). -/
def timeHour : Nat := 3600000000000

/-- Modelled from the spec (4.2): convert a duration to whole minutes by
truncation, as `int(d.Minutes())` does for minute-aligned inputs. -/
def minutesOf (d : Nat) : Nat := d / timeMinute

/-- Go `api.Repository`: {id, full name, default branch} (spec section 3). -/
structure Repository where
  ID : Nat
  FullName : String
  DefaultBranch : String
deriving Repr, DecidableEq

/-- Go `api.DevContainerEntry`: a discovered devcontainer path (spec section 3). -/
structure DevContainerEntry where
  Path : String
deriving Repr, DecidableEq

/-- Go `api.Machine`: {name, display name, prebuild availability tag} (spec section 3). -/
structure Machine where
  Name : String
  DisplayName : String
  PrebuildAvailability : String
deriving Repr, DecidableEq

/-- Go `api.CreateCodespaceParams`: the outgoing creation request
(spec section 3).  `RetentionPeriodMinutes` is an optional value
(`*int` in Go): `none` means the field is absent from the request. -/
structure CreateCodespaceParams where
  RepositoryID : Nat
  Branch : String
  Machine : String
  Location : String
  DevContainerPath : String
  IdleTimeoutMinutes : Nat
  RetentionPeriodMinutes : Option Nat
  PermissionsOptOut : Bool
deriving Repr, DecidableEq

/-- Go `api.Codespace` (the fields the create flow observes):
server-assigned name and the optional idle-timeout notice
(spec section 3; empty string means no notice). -/
structure Codespace where
  Name : String
  IdleTimeoutNotice : String
deriving Repr, DecidableEq

/-- Errors returned by the remote create call (spec sections 3, 4.3):
either the distinguished permissions-required signal carrying an
authorization URL, or any other error. -/
inductive ApiError where
  | acceptPermissionsRequired (allowPermissionsURL : String)
  | other (msg : String)
deriving Repr, DecidableEq

/-- The Remote Service Facade consumed by `App.Create`
(spec section 6), as a record of pure operations; each returns
`Except` to model the Go error value. -/
structure ApiClient where
  GetRepository : String → Except String Repository
  GetCodespaceRegionLocation : Except String String
  ListDevContainers : Nat → String → Nat → Except String (List DevContainerEntry)
  GetCodespacesMachines : Nat → String → String → Except String (List Machine)
  CreateCodespace : CreateCodespaceParams → Except ApiError Codespace

/-- Go `createOptions` (the caller-supplied inputs of the print-only flow,
as in the test file): durations in nanoseconds; `retentionPeriod` is the
tri-state `NullableDuration` (`none` = unset). -/
structure createOptions where
  repo : String
  branch : String
  machine : String
  showStatus : Bool
  permissionsOptOut : Bool
  devContainerPath : String
  idleTimeout : Nat
  retentionPeriod : Option Nat
deriving Repr, DecidableEq

/-- The error taxonomy of `App.Create` as the caller sees it
(spec section 7): the sentinel silent error (`cmdutil.SilentError`),
the devcontainer discovery error wrapping its cause, or any other
error carried as its message. -/
inductive CreateError where
  | silent
  | discovery (cause : String)
  | msg (s : String)
deriving Repr, DecidableEq

deriving instance DecidableEq for Except

/-- The message a caller would print for each `CreateError`; the
discovery variant renders exactly as the test expects
(`error getting devcontainer.json paths: <cause>`). -/
def CreateError.message : CreateError → String
  | .silent => "SilentError"
  | .discovery cause => "error getting devcontainer.json paths: " ++ cause
  | .msg s => s

/-- Modelled from the spec: the user-facing rendering of a URL strips
the `https://` scheme, as the expected stderr of the permissions test
shows (`example.com/permissions` for `https://example.com/permissions`). -/
def displayURL (u : String) : String :=
  if "https://".data.isPrefixOf u.data then String.mk (u.data.drop 8) else u

/-- Modelled from the spec (4.3, outcome 2): the user-facing
instruction emitted when creation demands additional permissions,
with the exact wording the test expects on stderr. -/
def permissionsInstruction (url : String) : String :=
  "You must authorize or deny additional permissions requested by this codespace before continuing.\n"
    ++ "Open this URL in your browser to review and authorize additional permissions: "
    ++ displayURL url ++ "\n"
    ++ "Alternatively, you can run \"create\" with the \"--default-permissions\" option to continue without authorizing additional permissions.\n"

/-- Everything observable about one `App.Create` invocation: the
returned value or error, the bytes written to stdout and to the
user-facing stream (stderr), the creation requests issued, and how
many times devcontainer discovery was invoked. -/
structure CreateOutcome where
  result : Except CreateError Codespace
  stdout : String
  stderr : String
  createCalls : List CreateCodespaceParams
  listDevContainersCalls : Nat
deriving Repr, DecidableEq

/-- Modelled from the spec (4.1): the branch to use — the caller's,
or the repository's default branch when the caller's is empty. -/
def resolveBranch (opts : createOptions) (repository : Repository) : String :=
  if opts.branch = "" then repository.DefaultBranch else opts.branch

/-- Modelled from the spec (4.1, 9): the region is resolved
best-effort; a lookup failure never aborts the flow and leaves the
location empty. -/
def resolveLocation (client : ApiClient) : String :=
  match client.GetCodespaceRegionLocation with
  | .ok l => l
  | .error _ => ""

/-- Modelled from the spec (4.1): devcontainer-path resolution.  A
caller-supplied path is taken verbatim without invoking discovery;
otherwise discovery runs once — a failure is the error, zero entries
leave the path empty (server default), and otherwise the first entry
by discovery order is selected.  The second component counts the
discovery invocations. -/
def resolveDevContainerPath (client : ApiClient) (repoID : Nat) (branch : String)
    (opts : createOptions) : Except String (String × Nat) :=
  if opts.devContainerPath = "" then
    match client.ListDevContainers repoID branch 100 with
    | .error e => .error e
    | .ok [] => .ok ("", 1)
    | .ok (d :: _) => .ok (d.Path, 1)
  else .ok (opts.devContainerPath, 0)

/-- Modelled from the spec (4.1): machine selection.  A caller-supplied
name must exist in the catalog (`UnknownMachineError` otherwise); with
no name supplied the selection policy takes the first machine of a
non-empty catalog. -/
def chooseMachine (machines : List Machine) (opts : createOptions) : Except CreateError String :=
  if opts.machine = "" then
    match machines with
    | [] => .error (.msg "there are no available machine types for this repository")
    | m :: _ => .ok m.Name
  else if machines.any (fun m => m.Name == opts.machine) then .ok opts.machine
  else .error (.msg ("there is no such machine for the repository: " ++ opts.machine))

/-- Modelled from the spec (3, 4.2): the outgoing creation request,
constructed once.  The idle timeout is converted to whole minutes; the
tri-state retention period is passed through `Option.map`, so `unset`
stays absent and an explicit duration (zero included) is sent as its
minute value. -/
def buildParams (repository : Repository) (branch machine location devContainerPath : String)
    (opts : createOptions) : CreateCodespaceParams :=
  { RepositoryID := repository.ID
    Branch := branch
    Machine := machine
    Location := location
    DevContainerPath := devContainerPath
    IdleTimeoutMinutes := minutesOf opts.idleTimeout
    RetentionPeriodMinutes := opts.retentionPeriod.map minutesOf
    PermissionsOptOut := opts.permissionsOptOut }

/-- Modelled from the spec (4.1, 4.2): the Selection Resolver plus the
Retention/Timeout Policy — everything before the single creation call.
Returns either the request to send together with the count of
discovery invocations, or the aborting error together with that
count. -/
def planCreate (client : ApiClient) (opts : createOptions) :
    Except (CreateError × Nat) (CreateCodespaceParams × Nat) :=
  match client.GetRepository opts.repo with
  | .error e => .error (.msg ("error getting repository: " ++ e), 0)
  | .ok repository =>
    match resolveDevContainerPath client repository.ID (resolveBranch opts repository) opts with
    | .error e => .error (.discovery e, 1)
    | .ok (devContainerPath, listCalls) =>
      match client.GetCodespacesMachines repository.ID (resolveBranch opts repository)
          (resolveLocation client) with
      | .error e =>
        .error (.msg ("error requesting machine instance types: " ++ e), listCalls)
      | .ok machines =>
        match chooseMachine machines opts with
        | .error err => .error (err, listCalls)
        | .ok machine =>
          .ok (buildParams repository (resolveBranch opts repository) machine
            (resolveLocation client) devContainerPath opts, listCalls)

/-- Modelled from the spec (4.3): the Codespace Provisioner.  Issue
the creation call exactly once.  On success print the codespace name
to stdout and surface a non-empty idle-timeout notice on the
user-facing stream only when it is interactive; on the
permissions-required signal emit the instruction once and return the
sentinel silent error; propagate any other error. -/
def runCreate (client : ApiClient) (params : CreateCodespaceParams) (listCalls : Nat)
    (isTTY : Bool) : CreateOutcome :=
  match client.CreateCodespace params with
  | .error (.acceptPermissionsRequired url) =>
    { result := .error .silent,
      stdout := "", stderr := permissionsInstruction url,
      createCalls := [params], listDevContainersCalls := listCalls }
  | .error (.other e) =>
    { result := .error (.msg ("error creating codespace: " ++ e)),
      stdout := "", stderr := "", createCalls := [params], listDevContainersCalls := listCalls }
  | .ok codespace =>
    { result := .ok codespace,
      stdout := codespace.Name ++ "\n",
      stderr :=
        if codespace.IdleTimeoutNotice != "" && isTTY then
          "Notice: " ++ codespace.IdleTimeoutNotice ++ "\n"
        else "",
      createCalls := [params], listDevContainersCalls := listCalls }

/-- Modelled from the spec (4.1 to 4.3), file `create.go` absent from
`src/`: the `App.Create` orchestration of the print-only flow —
resolve everything, then issue the creation call once. -/
def appCreate (client : ApiClient) (opts : createOptions) (isTTY : Bool) : CreateOutcome :=
  match planCreate client opts with
  | .error (err, listCalls) =>
    { result := .error err, stdout := "", stderr := "",
      createCalls := [], listDevContainersCalls := listCalls }
  | .ok (params, listCalls) => runCreate client params listCalls isTTY

/-- Modelled from the spec (section 3, Machine; section 8):
`buildDisplayName` appends the `(Prebuild ready)` suffix exactly for
the prebuild-availability tags `pool` and `blob`. -/
def buildDisplayName (displayName prebuildAvailability : String) : String :=
  if prebuildAvailability = "pool" ∨ prebuildAvailability = "blob" then
    displayName ++ " (Prebuild ready)"
  else displayName

/-! ## The readiness poll loop (spec 4.4), in discrete time

The poller's implementation is not under `src/`; it is modelled from
the spec: a single in-flight poll per tick, the cancellation signal
checked before each poll. -/

/-- What one poll of the codespace state reveals to the loop:
still booting, reached a connectable state, or reached a terminal
failure state (spec 4.4). -/
inductive PollObservation where
  | pending
  | connectable
  | failed
deriving Repr, DecidableEq

/-- The poller's environment: the caller's cancellation signal and the
codespace state, both sampled at discrete ticks (one tick = one poll
interval). -/
structure PollEnv where
  cancelled : Nat → Bool
  observe : Nat → PollObservation

/-- How `Await` terminates (spec 4.4): success, `ProvisionFailedError`,
`CanceledError`, or fuel exhaustion (an artifact of the bounded model,
reached only when no terminal condition occurs within the fuel). -/
inductive AwaitResult where
  | ok
  | provisionFailed
  | canceled
  | outOfFuel
deriving Repr, DecidableEq

/-- The observable behaviour of one `Await` run: how it terminated and
the ticks at which a poll call was actually issued. -/
structure AwaitOutcome where
  result : AwaitResult
  polls : List Nat
deriving Repr, DecidableEq

/-- Modelled from the spec (4.4), poller implementation absent from
`src/`: the poll loop from tick `t` with the given fuel.  Each
iteration first samples the caller's cancellation signal — if it has
fired, the loop returns `CanceledError` at once, issuing no further
poll — and otherwise issues exactly one poll, terminating on a
connectable or terminal-failure observation. -/
def awaitFrom (env : PollEnv) : Nat → Nat → AwaitOutcome
  | 0, _ => { result := .outOfFuel, polls := [] }
  | fuel + 1, t =>
    if env.cancelled t then { result := .canceled, polls := [] }
    else
      match env.observe t with
      | .connectable => { result := .ok, polls := [t] }
      | .failed => { result := .provisionFailed, polls := [t] }
      | .pending =>
        let rest := awaitFrom env fuel (t + 1)
        { result := rest.result, polls := t :: rest.polls }

/-- The operation `Await` (spec 4.4): run the poll loop from tick 0. -/
def await (env : PollEnv) (fuel : Nat) : AwaitOutcome := awaitFrom env fuel 0

/-! ## Mock clients, mirroring `src/pkg/cmd/codespace/create_test.go` -/

/-- The machine the test catalogs offer. -/
def gigaMachine : Machine :=
  { Name := "GIGA", DisplayName := "Gigabits of a machine", PrebuildAvailability := "" }

/-- The test repository: ID 1234, default branch `main`. -/
def dotfilesRepo (nwo : String) : Repository :=
  { ID := 1234, FullName := nwo, DefaultBranch := "main" }

/-- The caller inputs shared by the test cases: repository
`monalisa/dotfiles`, empty branch, machine `GIGA`, 30-minute idle
timeout, retention unset. -/
def baseOpts : createOptions :=
  { repo := "monalisa/dotfiles", branch := "", machine := "GIGA",
    showStatus := false, permissionsOptOut := false, devContainerPath := "",
    idleTimeout := 30 * timeMinute, retentionPeriod := none }

/-- The mock of the first test case (`create codespace with default
branch and 30m idle timeout`): discovery finds one entry, the creation
stub rejects any request whose branch is not `main`, whose idle
timeout is not 30 minutes or whose retention is not exactly 2880
minutes, and otherwise returns `monalisa-dotfiles-abcd1234`. -/
def scenarioClient : ApiClient :=
  { GetRepository := fun nwo => .ok (dotfilesRepo nwo)
    GetCodespaceRegionLocation := .error "no region capability"
    ListDevContainers := fun _ _ _ => .ok [{ Path := ".devcontainer/devcontainer.json" }]
    GetCodespacesMachines := fun _ _ _ => .ok [gigaMachine]
    CreateCodespace := fun params =>
      if params.Branch ≠ "main" then .error (.other "wrong branch")
      else if params.IdleTimeoutMinutes ≠ 30 then .error (.other "wrong idle timeout minutes")
      else if params.RetentionPeriodMinutes ≠ some 2880 then .error (.other "wrong retention period minutes")
      else .ok { Name := "monalisa-dotfiles-abcd1234", IdleTimeoutNotice := "" } }

/-- A permissive mock parametrized by the discovery listing and the
creation stub; repository, region and machine catalog behave as in the
tests. -/
def mockClient (devc : Except String (List DevContainerEntry))
    (create : CreateCodespaceParams → Except ApiError Codespace) : ApiClient :=
  { GetRepository := fun nwo => .ok (dotfilesRepo nwo)
    GetCodespaceRegionLocation := .ok "EUROPE"
    ListDevContainers := fun _ _ _ => devc
    GetCodespacesMachines := fun _ _ _ => .ok [gigaMachine]
    CreateCodespace := create }

/-- The mock of the permissions test case: creation always demands
additional permissions, pointing at `url`. -/
def permClient (url : String) : ApiClient :=
  mockClient (.ok [{ Path := ".devcontainer/devcontainer.json" }])
    (fun _ => .error (.acceptPermissionsRequired url))

/-- The mock of the idle-timeout-notice test cases: discovery finds no
entries and creation succeeds with notice `n`. -/
def noticeClient (n : String) : ApiClient :=
  mockClient (.ok [])
    (fun _ => .ok { Name := "monalisa-dotfiles-abcd1234", IdleTimeoutNotice := n })

/-- The mock of the discovery-failure test case: listing devcontainer
paths fails with `e`; the machine catalog is unavailable, as in the
test, so reaching it would fail rather than be silently skipped. -/
def discoveryFailClient (e : String) : ApiClient :=
  { GetRepository := fun nwo => .ok (dotfilesRepo nwo)
    GetCodespaceRegionLocation := .ok "EUROPE"
    ListDevContainers := fun _ _ _ => .error e
    GetCodespacesMachines := fun _ _ _ => .error "machine catalog unavailable"
    CreateCodespace := fun _ => .error (.other "creation unavailable") }

/-- The mock of the explicit-devcontainer-path test case: no discovery
capability at all (listing always fails), creation succeeds. -/
def noDiscoveryClient : ApiClient :=
  mockClient (.error "discovery unavailable")
    (fun _ => .ok { Name := "monalisa-dotfiles-abcd1234", IdleTimeoutNotice := "" })

/-- The caller inputs of the first test case: `baseOpts` with a
48-hour retention period. -/
def scenarioOpts : createOptions :=
  { baseOpts with retentionPeriod := some (48 * timeHour) }

/-- The creation request the first test case must produce: branch
`main`, 30 idle-timeout minutes, 2880 retention minutes, the single
discovered devcontainer path. -/
def scenarioParams : CreateCodespaceParams :=
  { RepositoryID := 1234, Branch := "main", Machine := "GIGA",
    Location := "", DevContainerPath := ".devcontainer/devcontainer.json",
    IdleTimeoutMinutes := 30, RetentionPeriodMinutes := some 2880,
    PermissionsOptOut := false }

/-- The codespace the creation stub returns on success. -/
def scenarioCodespace : Codespace :=
  { Name := "monalisa-dotfiles-abcd1234", IdleTimeoutNotice := "" }

/-- The creation request produced from `baseOpts` against `mockClient`
with empty discovery: empty devcontainer path, retention absent. -/
def noticeParams : CreateCodespaceParams :=
  { RepositoryID := 1234, Branch := "main", Machine := "GIGA",
    Location := "EUROPE", DevContainerPath := "",
    IdleTimeoutMinutes := 30, RetentionPeriodMinutes := none,
    PermissionsOptOut := false }

/-- The options `baseOpts` with a caller-supplied devcontainer path. -/
def explicitPathOpts (p : String) : createOptions :=
  { baseOpts with devContainerPath := p }

/-- The idle-timeout notice string of the test cases. -/
def policyNotice : String :=
  "Idle timeout for this codespace is set to 10 minutes in compliance with your organization's policy"

/-- A poll environment whose cancellation signal fires at tick 2 and
whose codespace never leaves the booting states. -/
def cancelAt2Env : PollEnv :=
  { cancelled := fun i => decide (2 ≤ i), observe := fun _ => .pending }


/-! ## Helper lemmas -/

/-- Every request the plan emits carries the tri-state retention period
mapped through `minutesOf`. -/
theorem planCreate_retention (client : ApiClient) (opts : createOptions)
    (p : CreateCodespaceParams) (lc : Nat) (h : planCreate client opts = .ok (p, lc)) :
    p.RetentionPeriodMinutes = Option.map minutesOf opts.retentionPeriod := by
  unfold planCreate at h
  repeat' split at h
  all_goals try contradiction
  injection h with h1
  injection h1 with h2 h3
  subst h2
  rfl

/-- Every creation request actually issued is the one the plan
produced. -/
theorem createCalls_from_plan (client : ApiClient) (opts : createOptions) (tty : Bool)
    (p : CreateCodespaceParams) (hp : p ∈ (appCreate client opts tty).createCalls) :
    ∃ lc, planCreate client opts = .ok (p, lc) := by
  unfold appCreate at hp
  split at hp
  · simp at hp
  · next params listCalls heq =>
    unfold runCreate at hp
    repeat' split at hp
    all_goals simp_all

/-- A rendered idle-timeout notice is never the empty string. -/
theorem notice_msg_ne_empty (n : String) : "Notice: " ++ n ++ "\n" ≠ "" := by
  intro h
  have hl := congrArg String.length h
  rw [String.length_append, String.length_append] at hl
  have h1 : "Notice: ".length = 8 := by decide
  have h2 : "\n".length = 1 := by decide
  have h3 : "".length = 0 := by decide
  omega

/-- The poll loop started at tick `t`: if the cancellation signal first
fires at tick `k` while every earlier tick still observes a booting
state, the loop returns `CanceledError` and polls only before `k`. -/
theorem awaitFrom_canceled (env : PollEnv) (k : Nat) :
    ∀ fuel t, t ≤ k → k < t + fuel →
      (∀ i, t ≤ i → i < k → env.cancelled i = false ∧ env.observe i = .pending) →
      env.cancelled k = true →
      (awaitFrom env fuel t).result = .canceled ∧
        ∀ x ∈ (awaitFrom env fuel t).polls, x < k := by
  intro fuel
  induction fuel with
  | zero => intro t ht hf _ _; omega
  | succ fuel ih =>
    intro t ht hf hpend hk
    by_cases hek : t = k
    · subst hek
      unfold awaitFrom
      rw [if_pos hk]
      exact ⟨rfl, by intro x hx; simp at hx⟩
    · have htk : t < k := lt_of_le_of_ne ht hek
      obtain ⟨hc, ho⟩ := hpend t le_rfl htk
      unfold awaitFrom
      rw [if_neg (by simp [hc]), ho]
      have hrec := ih (t + 1) htk (by omega)
        (fun i hi1 hi2 => hpend i (by omega) hi2) hk
      refine ⟨hrec.1, ?_⟩
      intro x hx
      simp at hx
      rcases hx with rfl | hx
      · exact htk
      · exact hrec.2 x hx

/-! ## Claim theorems -/

/-- C1: the retention period is tri-state.  For every create attempt
(any client, any options, any interactivity), every issued
`CreateCodespaceParams` omits `RetentionPeriodMinutes` (`none`) when
the caller's retention period is unset, carries exactly the minute
value of an explicitly set duration (zero included), and the field is
absent if and only if the caller left the period unset — so unset and
explicit zero stay distinguishable in the request. -/
theorem retention_tri_state (client : ApiClient) (opts : createOptions) (tty : Bool)
    (p : CreateCodespaceParams) (hp : p ∈ (appCreate client opts tty).createCalls) :
    (opts.retentionPeriod = none → p.RetentionPeriodMinutes = none) ∧
      (∀ v, opts.retentionPeriod = some v → p.RetentionPeriodMinutes = some (minutesOf v)) ∧
      (p.RetentionPeriodMinutes = none ↔ opts.retentionPeriod = none) := by
  obtain ⟨lc, h⟩ := createCalls_from_plan client opts tty p hp
  have hr := planCreate_retention client opts p lc h
  refine ⟨fun h0 => by simp [hr, h0], fun v hv => by simp [hr, hv], ?_⟩
  simp [hr, Option.map_eq_none]

/-- Witness for C1: an issued request with the retention period unset
omits the field, and one with a 48-hour retention period carries
exactly 2880 minutes. -/
theorem retention_tri_state_witness :
    noticeParams.RetentionPeriodMinutes = none ∧
      scenarioParams.RetentionPeriodMinutes = some 2880 :=
  ⟨(retention_tri_state (noticeClient "") baseOpts false noticeParams (by decide)).1 rfl,
    ((retention_tri_state scenarioClient scenarioOpts false scenarioParams
      (by decide)).2.1 (48 * timeHour) rfl).trans (by decide)⟩

/-- C2: for repository `monalisa/dotfiles` with empty branch, machine
`GIGA`, a 30-minute idle timeout and a 48-hour retention period,
`Create` issues exactly one creation request, carrying branch `main`
(the repository's default), 30 idle-timeout minutes and 2880 retention
minutes, succeeds, and prints a codespace whose name is
`monalisa-dotfiles-` followed by a non-empty suffix.  (The creation
stub rejects any request violating these expectations, exactly as the
test's `CreateCodespaceFunc` does.) -/
theorem create_scenario_monalisa :
    (appCreate scenarioClient scenarioOpts false).createCalls = [scenarioParams] ∧
      scenarioParams.Branch = "main" ∧
      scenarioParams.IdleTimeoutMinutes = 30 ∧
      scenarioParams.RetentionPeriodMinutes = some 2880 ∧
      (appCreate scenarioClient scenarioOpts false).result = .ok scenarioCodespace ∧
      (appCreate scenarioClient scenarioOpts false).stdout = "monalisa-dotfiles-abcd1234\n" ∧
      ∃ suffix, suffix ≠ "" ∧ scenarioCodespace.Name = "monalisa-dotfiles-" ++ suffix :=
  ⟨by decide, rfl, rfl, rfl, by decide, by decide, "abcd1234", by decide, by decide⟩

/-- C3: whenever creation fails with the permissions-required signal,
`Create` does not retry (exactly one creation request), returns the
sentinel silent error, and the user-facing stream carries exactly one
copy of the instruction built from the authorization URL and the
default-permissions hint; at the test's URL that instruction is
exactly the test's expected stderr. -/
theorem create_permissions_required (url : String) (tty : Bool) :
    (appCreate (permClient url) baseOpts tty).result = .error .silent ∧
      (appCreate (permClient url) baseOpts tty).stderr = permissionsInstruction url ∧
      (appCreate (permClient url) baseOpts tty).createCalls.length = 1 ∧
      permissionsInstruction "https://example.com/permissions" =
        "You must authorize or deny additional permissions requested by this codespace before continuing.\nOpen this URL in your browser to review and authorize additional permissions: example.com/permissions\nAlternatively, you can run \"create\" with the \"--default-permissions\" option to continue without authorizing additional permissions.\n" :=
  ⟨rfl, rfl, rfl, by decide⟩

/-- C4: on a successful create carrying a non-empty idle-timeout
notice, the notice appears on the user-facing stream if and only if
that stream is interactive, and a non-interactive run writes nothing
extra there. -/
theorem create_notice_iff_interactive (n : String) (tty : Bool) (hn : n ≠ "") :
    ((appCreate (noticeClient n) baseOpts tty).stderr = "Notice: " ++ n ++ "\n" ↔ tty = true) ∧
      (tty = false → (appCreate (noticeClient n) baseOpts tty).stderr = "") ∧
      (appCreate (noticeClient n) baseOpts tty).result =
        .ok { Name := "monalisa-dotfiles-abcd1234", IdleTimeoutNotice := n } := by
  have hred : appCreate (noticeClient n) baseOpts tty =
      { result := .ok { Name := "monalisa-dotfiles-abcd1234", IdleTimeoutNotice := n },
        stdout := "monalisa-dotfiles-abcd1234\n",
        stderr := if n != "" && tty then "Notice: " ++ n ++ "\n" else "",
        createCalls := [noticeParams],
        listDevContainersCalls := 1 } := rfl
  rw [hred]
  cases tty with
  | false =>
    simp
    exact fun h => notice_msg_ne_empty n h.symm
  | true => simp [hn]

/-- Witness for C4: with the test's organization-policy notice, an
interactive run shows it on stderr and a non-interactive run shows
nothing. -/
theorem create_notice_iff_interactive_witness :
    ((appCreate (noticeClient policyNotice) baseOpts true).stderr =
        "Notice: " ++ policyNotice ++ "\n" ↔ true = true) ∧
      (false = false → (appCreate (noticeClient policyNotice) baseOpts false).stderr = "") :=
  ⟨(create_notice_iff_interactive policyNotice true (by decide)).1,
    fun _ => (create_notice_iff_interactive policyNotice false (by decide)).2.1 rfl⟩

/-- C5: with no caller-supplied devcontainer path and a discovery that
returns zero entries, creation proceeds without error and the single
issued request carries an empty `DevContainerPath` (server default);
absence of devcontainer files is not a failure. -/
theorem create_zero_devcontainers (opts : createOptions) (tty : Bool)
    (h1 : opts.devContainerPath = "") (h2 : opts.machine = "GIGA") :
    (∃ c, (appCreate (noticeClient "") opts tty).result = .ok c) ∧
      ((appCreate (noticeClient "") opts tty).createCalls.map
        (fun p => p.DevContainerPath)) = [""] := by
  have hplan : planCreate (noticeClient "") opts =
      .ok (buildParams (dotfilesRepo opts.repo) (resolveBranch opts (dotfilesRepo opts.repo))
        "GIGA" "EUROPE" "" opts, 1) := by
    unfold planCreate resolveDevContainerPath chooseMachine
    simp [noticeClient, mockClient, resolveLocation, gigaMachine, h1, h2]
  unfold appCreate
  rw [hplan]
  unfold runCreate
  simp [noticeClient, mockClient, buildParams]

/-- Witness for C5: at the test's options the zero-entry discovery run
succeeds and sends an empty devcontainer path. -/
theorem create_zero_devcontainers_witness :
    (∃ c, (appCreate (noticeClient "") baseOpts false).result = .ok c) ∧
      ((appCreate (noticeClient "") baseOpts false).createCalls.map
        (fun p => p.DevContainerPath)) = [""] :=
  create_zero_devcontainers baseOpts false rfl rfl

/-- C6: when devcontainer discovery itself fails, the whole flow
aborts before any creation call, and `Create` returns the discovery
error wrapping the underlying cause, whose rendered message keeps the
original error text visible. -/
theorem create_discovery_failure (e : String) (opts : createOptions) (tty : Bool)
    (h1 : opts.devContainerPath = "") :
    (appCreate (discoveryFailClient e) opts tty).result = .error (.discovery e) ∧
      (appCreate (discoveryFailClient e) opts tty).createCalls = [] ∧
      (CreateError.discovery e).message = "error getting devcontainer.json paths: " ++ e := by
  have hplan : planCreate (discoveryFailClient e) opts = .error (.discovery e, 1) := by
    unfold planCreate resolveDevContainerPath
    simp [discoveryFailClient, h1]
  unfold appCreate
  rw [hplan]
  exact ⟨rfl, rfl, rfl⟩

/-- Witness for C6: the test's discovery failure `some error` aborts
with the wrapped message the test expects and no creation call. -/
theorem create_discovery_failure_witness :
    (appCreate (discoveryFailClient "some error") baseOpts false).result =
        .error (.discovery "some error") ∧
      (appCreate (discoveryFailClient "some error") baseOpts false).createCalls = [] ∧
      (CreateError.discovery "some error").message =
        "error getting devcontainer.json paths: " ++ "some error" :=
  create_discovery_failure "some error" baseOpts false rfl

/-- C7: `buildDisplayName` appends the suffix ` (Prebuild ready)` to
the display name exactly when the prebuild-availability tag is `pool`
or `blob`; for `none` or the empty string the display name is
unchanged, and the concrete instance of the test evaluates as the
claim states. -/
theorem buildDisplayName_prebuild_suffix (d p : String) :
    (buildDisplayName d p = d ++ " (Prebuild ready)" ↔ (p = "pool" ∨ p = "blob")) ∧
      buildDisplayName d "none" = d ∧
      buildDisplayName d "" = d ∧
      buildDisplayName "4 cores, 8 GB RAM, 32 GB storage" "pool" =
        "4 cores, 8 GB RAM, 32 GB storage (Prebuild ready)" := by
  refine ⟨⟨?_, ?_⟩, ?_, ?_, by decide⟩
  · intro h
    by_contra hc
    push_neg at hc
    unfold buildDisplayName at h
    rw [if_neg (not_or.mpr hc)] at h
    have hlen := congrArg String.length h
    rw [String.length_append] at hlen
    have hs : " (Prebuild ready)".length = 17 := by decide
    omega
  · intro h
    unfold buildDisplayName
    rw [if_pos h]
  · rfl
  · rfl

/-- C8: if the caller's cancellation signal fires at tick `k` while
the poller is still waiting (every earlier tick uncancelled and still
booting), `Await` returns `CanceledError` at the very next
cancellation check — within one poll interval of the model — and every
poll it ever issued happened strictly before the cancellation tick:
no further poll calls occur afterwards. -/
theorem await_canceled (env : PollEnv) (k fuel : Nat)
    (hfuel : k < fuel)
    (hpend : ∀ i, i < k → env.cancelled i = false ∧ env.observe i = .pending)
    (hk : env.cancelled k = true) :
    (await env fuel).result = .canceled ∧ ∀ x ∈ (await env fuel).polls, x < k :=
  awaitFrom_canceled env k fuel 0 (Nat.zero_le k) (by omega)
    (fun i _ hi => hpend i hi) hk

/-- Witness for C8: in the environment whose cancellation fires at
tick 2, `Await` with fuel 5 returns `CanceledError`. -/
theorem await_canceled_witness :
    (await cancelAt2Env 5).result = .canceled :=
  (await_canceled cancelAt2Env 2 5 (by omega)
    (fun i hi => ⟨by simp [cancelAt2Env]; omega, rfl⟩) (by decide)).1

/-- C9: a caller-supplied devcontainer path is passed verbatim into
the creation request, devcontainer discovery is never invoked, and
the flow succeeds even against a client with no working discovery
capability at all. -/
theorem create_explicit_devcontainer_path (p : String) (tty : Bool) (hp : p ≠ "") :
    (∃ c, (appCreate noDiscoveryClient (explicitPathOpts p) tty).result = .ok c) ∧
      (appCreate noDiscoveryClient (explicitPathOpts p) tty).listDevContainersCalls = 0 ∧
      ((appCreate noDiscoveryClient (explicitPathOpts p) tty).createCalls.map
        (fun q => q.DevContainerPath)) = [p] := by
  have hplan : planCreate noDiscoveryClient (explicitPathOpts p) =
      .ok (buildParams (dotfilesRepo "monalisa/dotfiles") "main" "GIGA" "EUROPE" p
        (explicitPathOpts p), 0) := by
    unfold planCreate resolveDevContainerPath chooseMachine
    simp [noDiscoveryClient, mockClient, resolveLocation, resolveBranch, explicitPathOpts,
      baseOpts, gigaMachine, dotfilesRepo, hp]
  unfold appCreate
  rw [hplan]
  unfold runCreate
  simp [noDiscoveryClient, mockClient, buildParams]

/-- Witness for C9: at the test's explicit path the flow succeeds
with zero discovery invocations and the path forwarded verbatim. -/
theorem create_explicit_devcontainer_path_witness :
    (appCreate noDiscoveryClient
        (explicitPathOpts ".devcontainer/foobar/devcontainer.json") false).listDevContainersCalls = 0 ∧
      ((appCreate noDiscoveryClient
        (explicitPathOpts ".devcontainer/foobar/devcontainer.json") false).createCalls.map
        (fun q => q.DevContainerPath)) = [".devcontainer/foobar/devcontainer.json"] :=
  ⟨(create_explicit_devcontainer_path ".devcontainer/foobar/devcontainer.json" false
      (by decide)).2.1,
    (create_explicit_devcontainer_path ".devcontainer/foobar/devcontainer.json" false
      (by decide)).2.2⟩

/-- C10: in the print-only flow a successful create writes to stdout
exactly the server-assigned name followed by one newline, whatever the
notice and interactivity; the notice, when shown at all, goes to
stderr prefixed with `Notice: ` and stdout never carries anything
else. -/
theorem create_stdout_machine_readable (n : String) (tty : Bool) :
    (appCreate (noticeClient n) baseOpts tty).stdout = "monalisa-dotfiles-abcd1234\n" ∧
      ((appCreate (noticeClient n) baseOpts tty).stderr = "" ∨
        (appCreate (noticeClient n) baseOpts tty).stderr = "Notice: " ++ n ++ "\n") := by
  have hred : appCreate (noticeClient n) baseOpts tty =
      { result := .ok { Name := "monalisa-dotfiles-abcd1234", IdleTimeoutNotice := n },
        stdout := "monalisa-dotfiles-abcd1234\n",
        stderr := if n != "" && tty then "Notice: " ++ n ++ "\n" else "",
        createCalls := [noticeParams],
        listDevContainersCalls := 1 } := rfl
  rw [hred]
  refine ⟨rfl, ?_⟩
  by_cases hc : (n != "" && tty) = true
  · rw [if_pos hc]; exact Or.inr rfl
  · rw [if_neg hc]; exact Or.inl rfl

end Codespaces
